import Mathlib

/-!
Shallow embedding of `scrape_bunker_prices.py` (Ship & Bunker price scraper).

Strings are modelled as Lean `String`/`List Char`; Python floats as exact
rationals `ℚ` (every value the scraper parses is a finite decimal); the
parsed HTML document is modelled at the lookup interface used by the code
(`soup.find`/`find_all` results); network fetches are oracles
`ℕ → Option page` indexed by attempt number (`none` = the attempt raised);
`print` calls that the claims mention are collected into log lists.
-/

/-- The whitespace characters removed by Python `str.strip()` (ASCII set). -/
def isPySpace (c : Char) : Bool :=
  c = ' ' || c = '\t' || c = '\n' || c = '\r' || c = '\x0B' || c = '\x0C'

/-- Python `str.strip()` on a character list: drop leading and trailing
whitespace. -/
def pyStrip (l : List Char) : List Char :=
  ((l.dropWhile isPySpace).reverse.dropWhile isPySpace).reverse

/-- Python `str.strip()` on a `String`. -/
def stripStr (s : String) : String :=
  String.mk (pyStrip s.data)

/-- One pass of `re.sub(r'<[^>]+>', '', s)`: leftmost non-overlapping
matches of `<[^>]+>` are deleted.  The second argument is `none` while
scanning outside a candidate tag and `some buf` (reversed buffer of the
characters seen since the opening `<`) while inside one.  A `<` with no
later `>` , and the two-character sequence `<>`, match nothing and are kept
verbatim, exactly as the regex behaves. -/
def tagsAux : List Char → Option (List Char) → List Char
  | [], none => []
  | [], some buf => '<' :: buf.reverse
  | c :: rest, none =>
      if c = '<' then tagsAux rest (some [])
      else c :: tagsAux rest none
  | c :: rest, some buf =>
      if c = '>' then
        match buf with
        | [] => '<' :: '>' :: tagsAux rest none
        | _ :: _ => tagsAux rest none
      else tagsAux rest (some (c :: buf))

/-- `re.sub(r'<[^>]+>', '', s)`: remove HTML tags. -/
def removeTags (l : List Char) : List Char :=
  tagsAux l none

/-- Value of a list of decimal digit characters, most significant first. -/
def digitsToNat (l : List Char) : ℕ :=
  l.foldl (fun a c => 10 * a + (c.toNat - 48)) 0

/-- The token matched by `re.search(r'[+-]?\d+\.?\d*', s)`, decomposed as
(negative sign present, integer digits, fraction digits).  `re.search`
returns the leftmost match; the pattern requires at least one digit, an
optional single leading `+`/`-`, and after the digits an optional `.`
followed by optionally more digits (all quantifiers greedy, and since `\.?`
and `\d*` can match empty, the greedy maximal runs are the match). -/
def findNumericToken : List Char → Option (Bool × List Char × List Char)
  | [] => none
  | c :: rest =>
    if c.isDigit then
      let ip := (c :: rest).takeWhile Char.isDigit
      let after := (c :: rest).dropWhile Char.isDigit
      match after with
      | '.' :: r => some (false, ip, r.takeWhile Char.isDigit)
      | _ => some (false, ip, [])
    else if (c = '-' || c = '+') && (rest.headD 'x').isDigit then
      let ip := rest.takeWhile Char.isDigit
      let after := rest.dropWhile Char.isDigit
      match after with
      | '.' :: r => some (c = '-', ip, r.takeWhile Char.isDigit)
      | _ => some (c = '-', ip, [])
    else findNumericToken rest

/-- Python `float()` applied to a matched token `[+-]?\d+\.?\d*`, as an
exact rational: `±(intpart + fracpart / 10 ^ len(fracpart))`. -/
def tokenVal (t : Bool × List Char × List Char) : ℚ :=
  let m : ℚ := (digitsToNat t.2.1 : ℚ) + (digitsToNat t.2.2 : ℚ) / 10 ^ t.2.2.length
  if t.1 then -m else m

/-- `clean_numeric_value(text)`: return `0.0` for an empty (falsy) input;
otherwise strip HTML tags, strip surrounding whitespace, search for the
first numeric substring `[+-]?\d+\.?\d*`, and return its float value, or
`0.0` when there is no match. -/
def clean_numeric_value (s : String) : ℚ :=
  if s.data = [] then 0
  else ((findNumericToken (pyStrip (removeTags s.data))).map tokenVal).getD 0

example : clean_numeric_value "" = 0 := by decide
example : findNumericToken (pyStrip (removeTags ("<span>-1.25</span>".data)))
    = some (true, ['1'], ['2', '5']) := by decide
example : findNumericToken (pyStrip (removeTags ("n/a".data))) = none := by decide
example : findNumericToken ("1,234.56".data) = some (false, ['1'], []) := by decide

/-! ## Record types (Python dicts built by the extractors; the `timestamp`
key is added later in `main`, modelled as a field initially `""`). -/

/-- One fuel-price row record. -/
structure FuelPriceRecord where
  timestamp : String
  fuel_type : String
  port : String
  price_usd_mt : ℚ
  change : ℚ
  high : ℚ
  low : ℚ
  spread : ℚ
deriving DecidableEq, Repr

/-- One methanol row record. -/
structure MethanolRecord where
  timestamp : String
  port : String
  gray_methanol_usd_mt : ℚ
  meoh_vlsfoe_usd_mte : ℚ
  meoh_mgoe_usd_mte : ℚ
deriving DecidableEq, Repr

/-- The single EUA compliance-cost record. -/
structure EuaRecord where
  timestamp : String
  eua_eur : ℚ
  eua_usd : ℚ
  eua_vlsfo_usd_mt : ℚ
  eua_mgo_usd_mt : ℚ
  eua_hfo_usd_mt : ℚ
deriving DecidableEq, Repr

/-! ## The parsed document, modelled at the `soup.find` lookup interface. -/

/-- A `<td>` cell: its text (`get_text()`), and whether it carries the
`price` class (so `find_all('td', class_='price')` selects it). -/
structure Td where
  text : String
  priceClass : Bool
deriving DecidableEq, Repr

/-- A `<th class="port">` cell: text of a nested `<a>` when present, and
the cell's own text. -/
structure PortCell where
  linkText : Option String
  text : String
deriving DecidableEq, Repr

/-- A `<tr>` row: the result of `row.find('th', class_='port')` and of
`row.find_all('td')` in document order. -/
structure HtmlRow where
  port : Option PortCell
  tds : List Td
deriving DecidableEq, Repr

/-- A price table: `table.find('tbody')` gives the row list, or `none`. -/
structure PriceTable where
  tbody : Option (List HtmlRow)
deriving DecidableEq, Repr

/-- A named `<div>` block (`block_1053` / `block_1070`):
`block.find('table', class_='price-table sm')`. -/
structure NamedBlock where
  priceTableSm : Option PriceTable
deriving DecidableEq, Repr

/-- The main page: `soup.find('div', id='block_1053')` and
`soup.find('div', id='block_1070')`. -/
structure MainDoc where
  methanolBlock : Option NamedBlock
  euaBlock : Option NamedBlock
deriving DecidableEq, Repr

/-- A fuel-price page: `soup.find('table', class_=...)` keyed by the class
string (the code passes `f'price-table {fuel_type}'`). -/
structure FuelPage where
  priceTable : String → Option PriceTable

/-- Port-name extraction: prefer the nested link's stripped text, fall back
to the cell's own stripped text. -/
def portNameOf (pc : PortCell) : String :=
  match pc.linkText with
  | some t => stripStr t
  | none => stripStr pc.text

/-! ## Fuel-price extraction (`scrape_fuel_prices`). -/

/-- The per-row body of the fuel-price loop: skip the row when there is no
port cell; when there are at least 5 `<td>` cells, build the record from
cells 0..4 (price, change, high, low, spread), each text stripped then
normalized; otherwise emit nothing. -/
def parseFuelRow (ft : String) (row : HtmlRow) : Option FuelPriceRecord :=
  match row.port with
  | none => none
  | some pc =>
    if 5 ≤ row.tds.length then
      some { timestamp := ""
             fuel_type := ft
             port := portNameOf pc
             price_usd_mt := clean_numeric_value (stripStr (row.tds.getD 0 ⟨"", false⟩).text)
             change := clean_numeric_value (stripStr (row.tds.getD 1 ⟨"", false⟩).text)
             high := clean_numeric_value (stripStr (row.tds.getD 2 ⟨"", false⟩).text)
             low := clean_numeric_value (stripStr (row.tds.getD 3 ⟨"", false⟩).text)
             spread := clean_numeric_value (stripStr (row.tds.getD 4 ⟨"", false⟩).text) }
    else none

/-- Success log line of `scrape_fuel_prices`. -/
def fuelSuccessLog (ft : String) (n : ℕ) : String :=
  "Successfully scraped " ++ toString n ++ " prices for " ++ ft

/-- Warning printed when the fuel-type table is absent. -/
def fuelTableWarning (ft : String) : String :=
  "Warning: Could not find price table for " ++ ft

/-- The parse phase of one successful fetch in `scrape_fuel_prices`: locate
`table.price-table <ft>`; absent table returns `[]` with a warning; absent
tbody returns `[]`; otherwise collect the parsed rows.  Result is
(records, log lines). -/
def parseFuelPage (ft : String) (page : FuelPage) :
    List FuelPriceRecord × List String :=
  match page.priceTable ("price-table " ++ ft) with
  | none => ([], [fuelTableWarning ft])
  | some t =>
    match t.tbody with
    | none => ([], [fuelSuccessLog ft 0])
    | some rows =>
      let prices := rows.filterMap (parseFuelRow ft)
      (prices, [fuelSuccessLog ft prices.length])

/-- Outcome of one call to `scrape_fuel_prices`: the returned list, the
number of fetch attempts performed, the sleeps between attempts
(`time.sleep(5)` values, in order), and the printed log lines. -/
structure FuelRunResult where
  records : List FuelPriceRecord
  attempts : ℕ
  delays : List ℕ
  logs : List String
deriving Repr

/-- The `for attempt in range(max_retries)` loop of `scrape_fuel_prices`.
`fetch attempt` is the fetch oracle (`none` models a raised exception:
network error, non-2xx status, timeout); `attempt` is the current index and
the second numeral the remaining iterations.  A successful fetch parses and
returns; a failed one sleeps 5 and retries while attempts remain, and on
the last attempt logs exhaustion and returns `[]`. -/
def scrapeFuelGo (fetch : ℕ → Option FuelPage) (ft : String) :
    ℕ → ℕ → FuelRunResult
  | _, 0 => ⟨[], 0, [], []⟩
  | attempt, remaining + 1 =>
    match fetch attempt with
    | some page =>
      let pr := parseFuelPage ft page
      ⟨pr.1, 1, [], pr.2⟩
    | none =>
      let flog := "Attempt " ++ toString (attempt + 1) ++ " failed for " ++ ft
      if remaining = 0 then
        ⟨[], 1, [],
          [flog, "Failed to scrape " ++ ft ++ " after " ++
            toString (attempt + 1) ++ " attempts"]⟩
      else
        let rest := scrapeFuelGo fetch ft (attempt + 1) remaining
        ⟨rest.records, rest.attempts + 1, 5 :: rest.delays, flog :: rest.logs⟩

/-- `scrape_fuel_prices(url, fuel_type, max_retries)`, with the fetch
abstracted as an attempt-indexed oracle. -/
def scrape_fuel_prices (fetch : ℕ → Option FuelPage) (ft : String)
    (maxRetries : ℕ) : FuelRunResult :=
  scrapeFuelGo fetch ft 0 maxRetries

/-! ## Methanol extraction (`scrape_methanol_prices`). -/

/-- Default cell used for the guarded index accesses
(`... if len(price_cells) > i else 0.0`): an absent cell contributes
`0.0`, and `clean_numeric_value "" = 0` makes `getD` coincide with the
conditional. -/
def defaultTd : Td := ⟨"", false⟩

/-- The per-row body of the methanol loop: skip the row when there is no
port cell; when there are at least 3 `price`-class `<td>` cells, map cell
index 2 to gray methanol, index 0 to the VLSFO equivalent and index 1 to
the MGO equivalent; otherwise emit nothing. -/
def parseMethanolRow (row : HtmlRow) : Option MethanolRecord :=
  match row.port with
  | none => none
  | some pc =>
    let priceCells := row.tds.filter (·.priceClass)
    if 3 ≤ priceCells.length then
      some { timestamp := ""
             port := portNameOf pc
             gray_methanol_usd_mt := clean_numeric_value (priceCells.getD 2 defaultTd).text
             meoh_vlsfoe_usd_mte := clean_numeric_value (priceCells.getD 0 defaultTd).text
             meoh_mgoe_usd_mte := clean_numeric_value (priceCells.getD 1 defaultTd).text }
    else none

/-- Success log line of `scrape_methanol_prices`. -/
def methanolSuccessLog (n : ℕ) : String :=
  "Successfully scraped " ++ toString n ++ " methanol prices"

/-- `scrape_methanol_prices(soup)`: locate `div#block_1053`, then its
`table.price-table.sm`, then its `tbody`; each absence degrades to `[]`
(the two lookups print warnings); otherwise collect the parsed rows.
Result is (records, log lines). -/
def scrape_methanol_prices (soup : MainDoc) :
    List MethanolRecord × List String :=
  match soup.methanolBlock with
  | none => ([], ["Warning: Could not find methanol price block"])
  | some blk =>
    match blk.priceTableSm with
    | none => ([], ["Warning: Could not find methanol price table"])
    | some t =>
      match t.tbody with
      | none => ([], [methanolSuccessLog 0])
      | some rows =>
        let ms := rows.filterMap parseMethanolRow
        (ms, [methanolSuccessLog ms.length])

/-! ## EUA compliance-cost extraction (`scrape_eua_prices`). -/

/-- The record built from the single EUA row: `price`-class cells 0..4 are
EUR cost, USD cost, and the VLSFO/MGO/HFO fuel-equivalent costs. -/
def mkEuaRecord (row : HtmlRow) : EuaRecord :=
  let priceCells := row.tds.filter (·.priceClass)
  { timestamp := ""
    eua_eur := clean_numeric_value (priceCells.getD 0 defaultTd).text
    eua_usd := clean_numeric_value (priceCells.getD 1 defaultTd).text
    eua_vlsfo_usd_mt := clean_numeric_value (priceCells.getD 2 defaultTd).text
    eua_mgo_usd_mt := clean_numeric_value (priceCells.getD 3 defaultTd).text
    eua_hfo_usd_mt := clean_numeric_value (priceCells.getD 4 defaultTd).text }

/-- Success log line of `scrape_eua_prices`. -/
def euaSuccessLog (n : ℕ) : String :=
  "Successfully scraped " ++ toString n ++ " EUA prices"

/-- `scrape_eua_prices(soup)`: locate `div#block_1070`, then its
`table.price-table.sm`, then its `tbody`; `tbody.find('tr')` takes only
the first row; the record is built only when that row has at least 5
`price`-class cells, else the cycle yields no EUA record.  Result is
(records, log lines). -/
def scrape_eua_prices (soup : MainDoc) : List EuaRecord × List String :=
  match soup.euaBlock with
  | none => ([], ["Warning: Could not find EUA price block"])
  | some blk =>
    match blk.priceTableSm with
    | none => ([], ["Warning: Could not find EUA price table"])
    | some t =>
      match t.tbody with
      | none => ([], [euaSuccessLog 0])
      | some rows =>
        match rows.head? with
        | none => ([], [euaSuccessLog 0])
        | some row =>
          if 5 ≤ (row.tds.filter (·.priceClass)).length then
            ([mkEuaRecord row], [euaSuccessLog 1])
          else ([], [euaSuccessLog 0])

/-- The first-row lookup chain used by the EUA extractor
(`block → table → tbody → first tr`), as one accessor. -/
def euaFirstRow (soup : MainDoc) : Option HtmlRow :=
  ((soup.euaBlock.bind NamedBlock.priceTableSm).bind PriceTable.tbody).bind List.head?

/-! ## CSV sink (`append_to_csv`). -/

/-- A CSV cell value: the scraper writes strings (timestamp, fuel type,
port) and floats. -/
inductive CsvVal where
  | str : String → CsvVal
  | num : ℚ → CsvVal
deriving DecidableEq, Repr

/-- `csv.DictWriter.writerow`: one output row holds the item's value for
each field name, in the declared field order (missing keys write the empty
rest-value). -/
def writeRow (fieldnames : List String) (item : List (String × CsvVal)) :
    List CsvVal :=
  fieldnames.map (fun f => ((item.lookup f).getD (CsvVal.str "")))

/-- `append_to_csv(filename, data, fieldnames)`: the file is `none` when it
does not exist yet, else `some` of its current rows.  A fresh file gets the
header row (the field names, in declared order) first; then every item of
`data` is appended as one row; existing rows are only ever extended. -/
def append_to_csv (file : Option (List (List CsvVal)))
    (data : List (List (String × CsvVal))) (fieldnames : List String) :
    List (List CsvVal) :=
  (match file with
   | none => [fieldnames.map CsvVal.str]
   | some rows => rows) ++ data.map (writeRow fieldnames)

/-! ## `main`: one cycle (fetch, extract, stamp, aggregate, save). -/

/-- The fixed fuel-type iteration order of `main`. -/
def fuelTypes : List String := ["VLSFO", "MGO", "IFO380"]

/-- Stamp a fuel record with the cycle timestamp
(`price['timestamp'] = timestamp`). -/
def stampFuel (ts : String) (r : FuelPriceRecord) : FuelPriceRecord :=
  { r with timestamp := ts }

/-- Stamp a methanol record with the cycle timestamp. -/
def stampMethanol (ts : String) (r : MethanolRecord) : MethanolRecord :=
  { r with timestamp := ts }

/-- Stamp an EUA record with the cycle timestamp. -/
def stampEua (ts : String) (r : EuaRecord) : EuaRecord :=
  { r with timestamp := ts }

/-- The per-fuel-type loop of `main`: for each fuel type in order, scrape
with 3 retries, stamp every record with the cycle timestamp, and extend
the shared collection. -/
def fuelLoop (fuelFetch : String → ℕ → Option FuelPage) (ts : String) :
    List FuelPriceRecord :=
  (fuelTypes.map (fun ft =>
    ((scrape_fuel_prices (fuelFetch ft) ft 3).records).map (stampFuel ts))).flatten

/-- The three per-category collections built by one cycle of `main`. -/
structure CycleResult where
  fuel : List FuelPriceRecord
  methanol : List MethanolRecord
  eua : List EuaRecord

/-- One cycle of `main` up to (not including) the save phase: the cycle
timestamp `ts` is computed once at the start (`get_utc_timestamp()`,
modelled as an input); the main page fetch is `mainFetch` (`none` = the
request raised, leaving methanol and EUA collections empty); every
extracted record is stamped with `ts`. -/
def mainCycle (ts : String) (mainFetch : Option MainDoc)
    (fuelFetch : String → ℕ → Option FuelPage) : CycleResult :=
  let mPart :=
    match mainFetch with
    | none => (([] : List MethanolRecord), ([] : List EuaRecord))
    | some soup =>
      ((scrape_methanol_prices soup).1.map (stampMethanol ts),
       (scrape_eua_prices soup).1.map (stampEua ts))
  { fuel := fuelLoop fuelFetch ts
    methanol := mPart.1
    eua := mPart.2 }

/-- Declared field order of `master_fuel_prices.csv`. -/
def fuelFieldnames : List String :=
  ["timestamp", "fuel_type", "port", "price_usd_mt", "change", "high", "low", "spread"]

/-- Declared field order of `master_methanol_prices.csv`. -/
def methanolFieldnames : List String :=
  ["timestamp", "port", "gray_methanol_usd_mt", "meoh_vlsfoe_usd_mte", "meoh_mgoe_usd_mte"]

/-- Declared field order of `master_eua_prices.csv`. -/
def euaFieldnames : List String :=
  ["timestamp", "eua_eur", "eua_usd", "eua_vlsfo_usd_mt", "eua_mgo_usd_mt", "eua_hfo_usd_mt"]

/-- The fuel record as the Python dict handed to the CSV writer. -/
def fuelToDict (r : FuelPriceRecord) : List (String × CsvVal) :=
  [("fuel_type", .str r.fuel_type), ("port", .str r.port),
   ("price_usd_mt", .num r.price_usd_mt), ("change", .num r.change),
   ("high", .num r.high), ("low", .num r.low), ("spread", .num r.spread),
   ("timestamp", .str r.timestamp)]

/-- The methanol record as the Python dict handed to the CSV writer. -/
def methanolToDict (r : MethanolRecord) : List (String × CsvVal) :=
  [("port", .str r.port), ("gray_methanol_usd_mt", .num r.gray_methanol_usd_mt),
   ("meoh_vlsfoe_usd_mte", .num r.meoh_vlsfoe_usd_mte),
   ("meoh_mgoe_usd_mte", .num r.meoh_mgoe_usd_mte),
   ("timestamp", .str r.timestamp)]

/-- The EUA record as the Python dict handed to the CSV writer. -/
def euaToDict (r : EuaRecord) : List (String × CsvVal) :=
  [("eua_eur", .num r.eua_eur), ("eua_usd", .num r.eua_usd),
   ("eua_vlsfo_usd_mt", .num r.eua_vlsfo_usd_mt),
   ("eua_mgo_usd_mt", .num r.eua_mgo_usd_mt),
   ("eua_hfo_usd_mt", .num r.eua_hfo_usd_mt),
   ("timestamp", .str r.timestamp)]

/-- The three destination files; `none` means the file does not exist. -/
structure FileStates where
  fuelFile : Option (List (List CsvVal))
  methanolFile : Option (List (List CsvVal))
  euaFile : Option (List (List CsvVal))
deriving DecidableEq, Repr

/-- The save phase of `main`: each category is written through
`append_to_csv` only when its collection is non-empty
(`if all_fuel_prices:` etc.); an empty category leaves its file untouched. -/
def mainSave (res : CycleResult) (fs : FileStates) : FileStates :=
  { fuelFile :=
      if res.fuel = [] then fs.fuelFile
      else some (append_to_csv fs.fuelFile (res.fuel.map fuelToDict) fuelFieldnames)
    methanolFile :=
      if res.methanol = [] then fs.methanolFile
      else some (append_to_csv fs.methanolFile (res.methanol.map methanolToDict) methanolFieldnames)
    euaFile :=
      if res.eua = [] then fs.euaFile
      else some (append_to_csv fs.euaFile (res.eua.map euaToDict) euaFieldnames) }

/-! ## A concrete sample scenario (used to instantiate the theorems). -/

/-- A sample fuel row: port cell plus five data cells. -/
def sampleFuelRow : HtmlRow :=
  ⟨some ⟨some "Rotterdam", "th"⟩,
    [⟨"500.0", false⟩, ⟨"-1.0", false⟩, ⟨"510.0", false⟩,
     ⟨"490.0", false⟩, ⟨"20.0", false⟩]⟩

/-- A sample fuel page carrying that one row for every table class. -/
def samplePage : FuelPage := ⟨fun _ => some ⟨some [sampleFuelRow]⟩⟩

/-- A fuel fetch oracle that always succeeds with the sample page. -/
def sampleFuelFetch : String → ℕ → Option FuelPage := fun _ _ => some samplePage

/-- A sample methanol row: port cell plus three price cells. -/
def sampleMethanolRow : HtmlRow :=
  ⟨some ⟨none, "Singapore"⟩,
    [⟨"650.0", true⟩, ⟨"700.0", true⟩, ⟨"330.0", true⟩]⟩

/-- A sample EUA row with five price cells. -/
def sampleEuaRow : HtmlRow :=
  ⟨none, [⟨"80.0", true⟩, ⟨"88.0", true⟩, ⟨"25.0", true⟩, ⟨"27.0", true⟩,
    ⟨"30.0", true⟩]⟩

/-- A sample main page holding both blocks. -/
def sampleSoup : MainDoc :=
  ⟨some ⟨some ⟨some [sampleMethanolRow]⟩⟩, some ⟨some ⟨some [sampleEuaRow]⟩⟩⟩

/-- The record the fuel extractor builds from `sampleFuelRow`. -/
def fuelSampleRec (ft : String) : FuelPriceRecord :=
  { timestamp := ""
    fuel_type := ft
    port := portNameOf ⟨some "Rotterdam", "th"⟩
    price_usd_mt := clean_numeric_value (stripStr "500.0")
    change := clean_numeric_value (stripStr "-1.0")
    high := clean_numeric_value (stripStr "510.0")
    low := clean_numeric_value (stripStr "490.0")
    spread := clean_numeric_value (stripStr "20.0") }

/-- The record the methanol extractor builds from `sampleMethanolRow`. -/
def methanolSampleRec : MethanolRecord :=
  { timestamp := ""
    port := portNameOf ⟨none, "Singapore"⟩
    gray_methanol_usd_mt := clean_numeric_value "330.0"
    meoh_vlsfoe_usd_mte := clean_numeric_value "650.0"
    meoh_mgoe_usd_mte := clean_numeric_value "700.0" }

/-! ## Helper lemmas. -/

/-- A decimal digit is not one of the stripped whitespace characters. -/
theorem isPySpace_eq_false_of_isDigit (c : Char) (h : c.isDigit = true) :
    isPySpace c = false := by
  unfold isPySpace
  have hs : c ≠ ' ' := by rintro rfl; exact absurd h (by decide)
  have ht : c ≠ '\t' := by rintro rfl; exact absurd h (by decide)
  have hn : c ≠ '\n' := by rintro rfl; exact absurd h (by decide)
  have hr : c ≠ '\r' := by rintro rfl; exact absurd h (by decide)
  have hv : c ≠ '\x0B' := by rintro rfl; exact absurd h (by decide)
  have hf : c ≠ '\x0C' := by rintro rfl; exact absurd h (by decide)
  simp [hs, ht, hn, hr, hv, hf]

/-- Tag removal leaves a `<`-free prefix untouched. -/
theorem tagsAux_append_none (l₁ l₂ : List Char) (h : ∀ c ∈ l₁, c ≠ '<') :
    tagsAux (l₁ ++ l₂) none = l₁ ++ tagsAux l₂ none := by
  induction l₁ with
  | nil => rfl
  | cons c l ih =>
    have hc : c ≠ '<' := h c (List.mem_cons_self c l)
    simp only [List.cons_append, tagsAux, if_neg hc, List.append_eq]
    rw [ih (fun x hx => h x (List.mem_cons_of_mem c hx))]

/-- `takeWhile` over a satisfying prefix closed off by a failing element. -/
theorem takeWhile_append_sat (p : Char → Bool) (l₁ : List Char) (c : Char)
    (l₂ : List Char) (h1 : ∀ x ∈ l₁, p x = true) (hc : p c = false) :
    (l₁ ++ c :: l₂).takeWhile p = l₁ := by
  induction l₁ with
  | nil => simp [List.takeWhile_cons, hc]
  | cons x l ih =>
    have hx : p x = true := h1 x (List.mem_cons_self x l)
    simp only [List.cons_append, List.takeWhile_cons, hx, if_true]
    rw [ih (fun y hy => h1 y (List.mem_cons_of_mem x hy))]

/-- `dropWhile` over a satisfying prefix closed off by a failing element. -/
theorem dropWhile_append_sat (p : Char → Bool) (l₁ : List Char) (c : Char)
    (l₂ : List Char) (h1 : ∀ x ∈ l₁, p x = true) (hc : p c = false) :
    (l₁ ++ c :: l₂).dropWhile p = c :: l₂ := by
  induction l₁ with
  | nil => simp [List.dropWhile_cons, hc]
  | cons x l ih =>
    have hx : p x = true := h1 x (List.mem_cons_self x l)
    simp only [List.cons_append, List.dropWhile_cons, hx, if_true]
    exact ih (fun y hy => h1 y (List.mem_cons_of_mem x hy))

/-- `dropWhile` distributes over an append whose right part starts with a
failing element. -/
theorem dropWhile_append_stop (p : Char → Bool) (a : List Char) (c : Char)
    (b : List Char) (hc : p c = false) :
    (a ++ c :: b).dropWhile p = a.dropWhile p ++ c :: b := by
  induction a with
  | nil => simp [List.dropWhile_cons, hc]
  | cons x a' ih =>
    by_cases hx : p x = true
    · simp [List.dropWhile_cons, hx, ih]
    · simp [List.dropWhile_cons, hx]

/-- Evaluation rule for the Normalizer: when the token search on the
cleaned text yields a token, `clean_numeric_value` is its float value. -/
theorem clean_eval (s : String) (t : Bool × List Char × List Char)
    (h0 : s.data ≠ [])
    (h1 : findNumericToken (pyStrip (removeTags s.data)) = some t) :
    clean_numeric_value s = tokenVal t := by
  unfold clean_numeric_value
  rw [if_neg h0, h1]
  rfl

/-- The scraped-attempt counter of the retry loop never exceeds the number
of remaining iterations. -/
theorem scrapeFuelGo_attempts_le (fetch : ℕ → Option FuelPage) (ft : String) :
    ∀ (r a : ℕ), (scrapeFuelGo fetch ft a r).attempts ≤ r := by
  intro r
  induction r with
  | zero => intro a; simp [scrapeFuelGo]
  | succ n ih =>
    intro a
    unfold scrapeFuelGo
    cases fetch a with
    | some page => simp
    | none =>
      by_cases hn : n = 0
      · simp [hn]
      · simp only [hn, if_false]
        have := ih (a + 1)
        simp
        omega

/-! ## Claim theorems. -/

/-- C7: the Sink's header write is idempotent with respect to file
existence: appending to a non-existent destination writes exactly one
header row (the field names, in declared order) before the data rows; an
append to an existing destination writes no header and keeps every
existing row as an unchanged prefix; hence two appends to a fresh
destination yield exactly one header row followed by both sets of data
rows. -/
theorem append_to_csv_header_idempotent :
    ∀ (fn : List String) (d1 d2 d : List (List (String × CsvVal)))
      (c : List (List CsvVal)),
      append_to_csv none d1 fn = (fn.map CsvVal.str) :: d1.map (writeRow fn) ∧
      append_to_csv (some c) d fn = c ++ d.map (writeRow fn) ∧
      append_to_csv (some (append_to_csv none d1 fn)) d2 fn
        = (fn.map CsvVal.str) :: (d1.map (writeRow fn) ++ d2.map (writeRow fn)) :=
  fun _ _ _ _ _ => ⟨rfl, rfl, rfl⟩

/-- C4: in fuel-price extraction, a row with fewer than 5 data cells
produces no record, a row without a port cell produces no record, a row
with a port cell and at least 5 data cells produces exactly the record
whose price, change, high, low and spread are the Normalizer's values of
cells 0..4 in that order, and the extraction count equals the number of
rows with a port cell and at least 5 cells. -/
theorem parseFuelRow_shape :
    ∀ (ft : String) (row : HtmlRow),
      (row.tds.length < 5 → parseFuelRow ft row = none) ∧
      (row.port = none → parseFuelRow ft row = none) ∧
      (∀ pc, row.port = some pc → 5 ≤ row.tds.length →
        parseFuelRow ft row = some
          { timestamp := ""
            fuel_type := ft
            port := portNameOf pc
            price_usd_mt := clean_numeric_value (stripStr (row.tds.getD 0 defaultTd).text)
            change := clean_numeric_value (stripStr (row.tds.getD 1 defaultTd).text)
            high := clean_numeric_value (stripStr (row.tds.getD 2 defaultTd).text)
            low := clean_numeric_value (stripStr (row.tds.getD 3 defaultTd).text)
            spread := clean_numeric_value (stripStr (row.tds.getD 4 defaultTd).text) }) ∧
      (∀ rows : List HtmlRow,
        (rows.filterMap (parseFuelRow ft)).length
          = (rows.filter (fun r => r.port.isSome && decide (5 ≤ r.tds.length))).length) := by
  intro ft row
  refine ⟨?_, ?_, ?_, ?_⟩
  · intro h
    cases hp : row.port with
    | none => simp [parseFuelRow, hp]
    | some pc =>
      simp only [parseFuelRow, hp]
      rw [if_neg (by omega)]
  · intro h
    simp [parseFuelRow, h]
  · intro pc hpc h5
    simp only [parseFuelRow, hpc]
    rw [if_pos h5]
    rfl
  · intro rows
    induction rows with
    | nil => rfl
    | cons r rs ih =>
      cases hp : r.port with
      | none => simp [List.filterMap_cons, List.filter_cons, parseFuelRow, hp, ih]
      | some pc =>
        by_cases h5 : 5 ≤ r.tds.length
        · simp [List.filterMap_cons, List.filter_cons, parseFuelRow, hp, h5, ih]
        · simp [List.filterMap_cons, List.filter_cons, parseFuelRow, hp, h5, ih]

/-- C4 witness: a concrete row with a port cell and five data cells
produces exactly the positional record. -/
theorem parseFuelRow_shape_witness :
    parseFuelRow "VLSFO"
        ⟨some ⟨some "Rotterdam", "th"⟩,
          [⟨"500.0", false⟩, ⟨"-1.0", false⟩, ⟨"510.0", false⟩,
           ⟨"490.0", false⟩, ⟨"20.0", false⟩]⟩ = some
      { timestamp := ""
        fuel_type := "VLSFO"
        port := portNameOf ⟨some "Rotterdam", "th"⟩
        price_usd_mt := clean_numeric_value (stripStr "500.0")
        change := clean_numeric_value (stripStr "-1.0")
        high := clean_numeric_value (stripStr "510.0")
        low := clean_numeric_value (stripStr "490.0")
        spread := clean_numeric_value (stripStr "20.0") } :=
  (parseFuelRow_shape "VLSFO" _).2.2.1 ⟨some "Rotterdam", "th"⟩ rfl (by decide)

/-- C8: the Table Locator never raises on structural absence: a missing
fuel-type table, a missing methanol block or nested table, and a missing
EUA block or nested table each yield an empty record list together with
the corresponding warning-level log line; for the fuel scraper this also
holds through the full retry wrapper when the first fetch succeeds. -/
theorem locator_absence_soft :
    (∀ (ft : String) (page : FuelPage),
        page.priceTable ("price-table " ++ ft) = none →
        parseFuelPage ft page = ([], [fuelTableWarning ft])) ∧
    (∀ (fetch : ℕ → Option FuelPage) (ft : String) (page : FuelPage),
        fetch 0 = some page → page.priceTable ("price-table " ++ ft) = none →
        (scrape_fuel_prices fetch ft 3).records = [] ∧
        (scrape_fuel_prices fetch ft 3).logs = [fuelTableWarning ft]) ∧
    (∀ soup : MainDoc, soup.methanolBlock = none →
        scrape_methanol_prices soup
          = ([], ["Warning: Could not find methanol price block"])) ∧
    (∀ (soup : MainDoc) (blk : NamedBlock), soup.methanolBlock = some blk →
        blk.priceTableSm = none →
        scrape_methanol_prices soup
          = ([], ["Warning: Could not find methanol price table"])) ∧
    (∀ soup : MainDoc, soup.euaBlock = none →
        scrape_eua_prices soup
          = ([], ["Warning: Could not find EUA price block"])) ∧
    (∀ (soup : MainDoc) (blk : NamedBlock), soup.euaBlock = some blk →
        blk.priceTableSm = none →
        scrape_eua_prices soup
          = ([], ["Warning: Could not find EUA price table"])) := by
  refine ⟨?_, ?_, ?_, ?_, ?_, ?_⟩
  · intro ft page h
    simp [parseFuelPage, h]
  · intro fetch ft page hf h
    constructor <;>
      simp [scrape_fuel_prices, scrapeFuelGo, hf, parseFuelPage, h]
  · intro soup h
    simp [scrape_methanol_prices, h]
  · intro soup blk hb ht
    simp [scrape_methanol_prices, hb, ht]
  · intro soup h
    simp [scrape_eua_prices, h]
  · intro soup blk hb ht
    simp [scrape_eua_prices, hb, ht]

/-- C8 witness: an entirely empty main page and a fuel page without the
VLSFO table each degrade to the empty category with the warning. -/
theorem locator_absence_soft_witness :
    parseFuelPage "VLSFO" ⟨fun _ => none⟩ = ([], [fuelTableWarning "VLSFO"]) ∧
    (scrape_fuel_prices (fun _ => some ⟨fun _ => none⟩) "VLSFO" 3).records = [] ∧
    scrape_methanol_prices ⟨none, none⟩
      = ([], ["Warning: Could not find methanol price block"]) ∧
    scrape_eua_prices ⟨some ⟨none⟩, some ⟨none⟩⟩
      = ([], ["Warning: Could not find EUA price table"]) :=
  ⟨locator_absence_soft.1 "VLSFO" ⟨fun _ => none⟩ rfl,
   (locator_absence_soft.2.1 (fun _ => some ⟨fun _ => none⟩) "VLSFO"
      ⟨fun _ => none⟩ rfl rfl).1,
   locator_absence_soft.2.2.1 ⟨none, none⟩ rfl,
   locator_absence_soft.2.2.2.2.2 ⟨some ⟨none⟩, some ⟨none⟩⟩ ⟨none⟩ rfl rfl⟩

/-- C9: the save phase never touches the file of an empty category (it is
neither created nor modified, and no header is written), while each
non-empty category is appended through the Sink. -/
theorem mainSave_frame :
    ∀ (res : CycleResult) (fs : FileStates),
      (res.fuel = [] → (mainSave res fs).fuelFile = fs.fuelFile) ∧
      (res.methanol = [] → (mainSave res fs).methanolFile = fs.methanolFile) ∧
      (res.eua = [] → (mainSave res fs).euaFile = fs.euaFile) ∧
      (res.fuel ≠ [] → (mainSave res fs).fuelFile
        = some (append_to_csv fs.fuelFile (res.fuel.map fuelToDict) fuelFieldnames)) ∧
      (res.methanol ≠ [] → (mainSave res fs).methanolFile
        = some (append_to_csv fs.methanolFile (res.methanol.map methanolToDict)
            methanolFieldnames)) ∧
      (res.eua ≠ [] → (mainSave res fs).euaFile
        = some (append_to_csv fs.euaFile (res.eua.map euaToDict) euaFieldnames)) := by
  intro res fs
  refine ⟨?_, ?_, ?_, ?_, ?_, ?_⟩ <;> intro h <;> simp [mainSave, h]

/-- C9 witness: with an empty methanol collection and a one-record fuel
collection, the methanol file (non-existent) stays non-existent while the
fuel file is written. -/
theorem mainSave_frame_witness :
    (mainSave ⟨[⟨"T", "VLSFO", "p", 1, 2, 3, 4, 5⟩], [], []⟩
        ⟨none, none, none⟩).methanolFile = none ∧
    (mainSave ⟨[⟨"T", "VLSFO", "p", 1, 2, 3, 4, 5⟩], [], []⟩
        ⟨none, none, none⟩).fuelFile
      = some (append_to_csv none
          ([⟨"T", "VLSFO", "p", 1, 2, 3, 4, 5⟩].map fuelToDict) fuelFieldnames) :=
  ⟨(mainSave_frame ⟨[⟨"T", "VLSFO", "p", 1, 2, 3, 4, 5⟩], [], []⟩
      ⟨none, none, none⟩).2.1 rfl,
   (mainSave_frame ⟨[⟨"T", "VLSFO", "p", 1, 2, 3, 4, 5⟩], [], []⟩
      ⟨none, none, none⟩).2.2.2.1 (by simp)⟩

/-- C5: EUA extraction emits at most one record per cycle, built
atomically from the first data row: every emitted record comes from the
first row of the located table with at least 5 price-tagged cells and
carries all five fields (EUR, USD, VLSFO, MGO, HFO equivalents, cells
0..4); a qualifying first row yields exactly that one record, and a first
row with fewer than 5 price cells yields zero records. -/
theorem scrape_eua_atomic :
    ∀ soup : MainDoc,
      (scrape_eua_prices soup).1.length ≤ 1 ∧
      (∀ rec ∈ (scrape_eua_prices soup).1, ∃ row,
          euaFirstRow soup = some row ∧
          5 ≤ (row.tds.filter (·.priceClass)).length ∧
          rec = mkEuaRecord row) ∧
      (∀ row, euaFirstRow soup = some row →
          5 ≤ (row.tds.filter (·.priceClass)).length →
          (scrape_eua_prices soup).1 = [mkEuaRecord row]) ∧
      (∀ row, euaFirstRow soup = some row →
          (row.tds.filter (·.priceClass)).length < 5 →
          (scrape_eua_prices soup).1 = []) := by
  intro soup
  rcases hb : soup.euaBlock with _ | blk
  · simp [scrape_eua_prices, euaFirstRow, hb]
  rcases ht : blk.priceTableSm with _ | t
  · simp [scrape_eua_prices, euaFirstRow, hb, ht]
  rcases hy : t.tbody with _ | rows
  · simp [scrape_eua_prices, euaFirstRow, hb, ht, hy]
  cases rows with
  | nil => simp [scrape_eua_prices, euaFirstRow, hb, ht, hy]
  | cons r rs =>
    by_cases h5 : 5 ≤ (r.tds.filter (·.priceClass)).length
    · refine ⟨?_, ?_, ?_, ?_⟩
      · simp [scrape_eua_prices, hb, ht, hy, h5]
      · intro rec hrec
        refine ⟨r, by simp [euaFirstRow, hb, ht, hy], h5, ?_⟩
        simpa [scrape_eua_prices, hb, ht, hy, h5] using hrec
      · intro row hrow h5b
        have : r = row := by
          simpa [euaFirstRow, hb, ht, hy] using hrow
        subst this
        simp [scrape_eua_prices, hb, ht, hy, h5]
      · intro row hrow h5b
        have : r = row := by
          simpa [euaFirstRow, hb, ht, hy] using hrow
        subst this
        omega
    · refine ⟨?_, ?_, ?_, ?_⟩
      · simp [scrape_eua_prices, hb, ht, hy, h5]
      · intro rec hrec
        simp [scrape_eua_prices, hb, ht, hy, h5] at hrec
      · intro row hrow h5b
        have : r = row := by
          simpa [euaFirstRow, hb, ht, hy] using hrow
        subst this
        exact absurd h5b h5
      · intro row hrow h5b
        simp [scrape_eua_prices, hb, ht, hy, h5]

/-- C5 witness: a concrete main page whose EUA table's first row has five
price cells yields exactly one, fully-populated record. -/
theorem scrape_eua_atomic_witness :
    (scrape_eua_prices
        ⟨none, some ⟨some ⟨some [⟨none,
          [⟨"80.0", true⟩, ⟨"88.0", true⟩, ⟨"25.0", true⟩, ⟨"27.0", true⟩,
           ⟨"30.0", true⟩]⟩]⟩⟩⟩).1
      = [mkEuaRecord ⟨none,
          [⟨"80.0", true⟩, ⟨"88.0", true⟩, ⟨"25.0", true⟩, ⟨"27.0", true⟩,
           ⟨"30.0", true⟩]⟩] :=
  (scrape_eua_atomic _).2.2.1 _ rfl (by decide)

/-- C2 counterexample: a methanol row with the claim's three price-tagged
cells but no port header cell produces no record at all, so cell 2 does
not become `gray_methanol_usd_mt` for it. -/
theorem methanol_mapping_counterexample :
    3 ≤ (([⟨"100.0", true⟩, ⟨"200.0", true⟩, ⟨"50.0", true⟩] : List Td).filter
          (·.priceClass)).length ∧
    parseMethanolRow
        ⟨none, [⟨"100.0", true⟩, ⟨"200.0", true⟩, ⟨"50.0", true⟩]⟩ = none :=
  ⟨by decide, rfl⟩

/-- C2 (amended): for every methanol row with a port header cell and at
least 3 price-tagged cells, price cell index 2 becomes
`gray_methanol_usd_mt`, index 0 becomes `meoh_vlsfoe_usd_mte` and index 1
becomes `meoh_mgoe_usd_mte`; in particular a row with a port cell and
price cells `["100.0","200.0","50.0"]` in document order yields the record
with VLSFOe 100.0, MGOe 200.0 and gray methanol 50.0. -/
theorem methanol_positional_mapping :
    (∀ (row : HtmlRow) (pc : PortCell), row.port = some pc →
      3 ≤ (row.tds.filter (·.priceClass)).length →
      parseMethanolRow row = some
        { timestamp := ""
          port := portNameOf pc
          gray_methanol_usd_mt :=
            clean_numeric_value ((row.tds.filter (·.priceClass)).getD 2 defaultTd).text
          meoh_vlsfoe_usd_mte :=
            clean_numeric_value ((row.tds.filter (·.priceClass)).getD 0 defaultTd).text
          meoh_mgoe_usd_mte :=
            clean_numeric_value ((row.tds.filter (·.priceClass)).getD 1 defaultTd).text }) ∧
    parseMethanolRow
        ⟨some ⟨some "Rotterdam", "th"⟩,
          [⟨"100.0", true⟩, ⟨"200.0", true⟩, ⟨"50.0", true⟩]⟩ = some
      { timestamp := ""
        port := "Rotterdam"
        gray_methanol_usd_mt := 50
        meoh_vlsfoe_usd_mte := 100
        meoh_mgoe_usd_mte := 200 } := by
  constructor
  · intro row pc hpc h3
    simp only [parseMethanolRow, hpc]
    rw [if_pos h3]
  · have h100 : clean_numeric_value "100.0" = 100 := by
      rw [clean_eval "100.0" (false, ['1','0','0'], ['0']) (by decide) (by decide)]
      norm_num [tokenVal, show digitsToNat ['1','0','0'] = 100 from by decide,
        show digitsToNat ['0'] = 0 from by decide]
    have h200 : clean_numeric_value "200.0" = 200 := by
      rw [clean_eval "200.0" (false, ['2','0','0'], ['0']) (by decide) (by decide)]
      norm_num [tokenVal, show digitsToNat ['2','0','0'] = 200 from by decide,
        show digitsToNat ['0'] = 0 from by decide]
    have h50 : clean_numeric_value "50.0" = 50 := by
      rw [clean_eval "50.0" (false, ['5','0'], ['0']) (by decide) (by decide)]
      norm_num [tokenVal, show digitsToNat ['5','0'] = 50 from by decide,
        show digitsToNat ['0'] = 0 from by decide]
    show some (⟨"", portNameOf ⟨some "Rotterdam", "th"⟩, clean_numeric_value "50.0",
        clean_numeric_value "100.0", clean_numeric_value "200.0"⟩ : MethanolRecord) = _
    rw [h50, h100, h200, show portNameOf ⟨some "Rotterdam", "th"⟩ = "Rotterdam" from by decide]

/-- C2 witness: the general positional-mapping statement applied to the
concrete three-cell row. -/
theorem methanol_positional_mapping_witness :
    parseMethanolRow
        ⟨some ⟨none, "Singapore"⟩,
          [⟨"650.0", true⟩, ⟨"700.0", true⟩, ⟨"330.0", true⟩]⟩ = some
      { timestamp := ""
        port := portNameOf ⟨none, "Singapore"⟩
        gray_methanol_usd_mt :=
          clean_numeric_value
            (([⟨"650.0", true⟩, ⟨"700.0", true⟩, ⟨"330.0", true⟩] : List Td).filter
              (·.priceClass) |>.getD 2 defaultTd).text
        meoh_vlsfoe_usd_mte :=
          clean_numeric_value
            (([⟨"650.0", true⟩, ⟨"700.0", true⟩, ⟨"330.0", true⟩] : List Td).filter
              (·.priceClass) |>.getD 0 defaultTd).text
        meoh_mgoe_usd_mte :=
          clean_numeric_value
            (([⟨"650.0", true⟩, ⟨"700.0", true⟩, ⟨"330.0", true⟩] : List Td).filter
              (·.priceClass) |>.getD 1 defaultTd).text } :=
  methanol_positional_mapping.1 _ ⟨none, "Singapore"⟩ rfl (by decide)

/-- C6: the cycle timestamp is computed once, and every record emitted by
every extractor in that cycle (fuel, methanol, EUA) carries that identical
timestamp value. -/
theorem cycle_timestamp_uniform :
    ∀ (ts : String) (mainFetch : Option MainDoc)
      (fuelFetch : String → ℕ → Option FuelPage),
      (∀ r ∈ (mainCycle ts mainFetch fuelFetch).fuel, r.timestamp = ts) ∧
      (∀ r ∈ (mainCycle ts mainFetch fuelFetch).methanol, r.timestamp = ts) ∧
      (∀ r ∈ (mainCycle ts mainFetch fuelFetch).eua, r.timestamp = ts) := by
  intro ts mainFetch fuelFetch
  refine ⟨?_, ?_, ?_⟩
  · intro r hr
    simp only [mainCycle, fuelLoop, List.mem_flatten, List.mem_map] at hr
    obtain ⟨l, ⟨ft, _, rfl⟩, hrl⟩ := hr
    obtain ⟨r', _, rfl⟩ := List.mem_map.mp hrl
    rfl
  · intro r hr
    cases mainFetch with
    | none => simp [mainCycle] at hr
    | some soup =>
      simp only [mainCycle, List.mem_map] at hr
      obtain ⟨r', _, rfl⟩ := hr
      rfl
  · intro r hr
    cases mainFetch with
    | none => simp [mainCycle] at hr
    | some soup =>
      simp only [mainCycle, List.mem_map] at hr
      obtain ⟨r', _, rfl⟩ := hr
      rfl

/-- C6 witness: a concrete cycle producing records in all three
categories; each concrete record is in its collection and carries the
cycle timestamp. -/
theorem cycle_timestamp_uniform_witness :
    (stampFuel "01/01/2026 00:00" (fuelSampleRec "VLSFO")
        ∈ (mainCycle "01/01/2026 00:00" (some sampleSoup) sampleFuelFetch).fuel ∧
      (stampFuel "01/01/2026 00:00" (fuelSampleRec "VLSFO")).timestamp
        = "01/01/2026 00:00") ∧
    (stampMethanol "01/01/2026 00:00" methanolSampleRec
        ∈ (mainCycle "01/01/2026 00:00" (some sampleSoup) sampleFuelFetch).methanol ∧
      (stampMethanol "01/01/2026 00:00" methanolSampleRec).timestamp
        = "01/01/2026 00:00") ∧
    (stampEua "01/01/2026 00:00" (mkEuaRecord sampleEuaRow)
        ∈ (mainCycle "01/01/2026 00:00" (some sampleSoup) sampleFuelFetch).eua ∧
      (stampEua "01/01/2026 00:00" (mkEuaRecord sampleEuaRow)).timestamp
        = "01/01/2026 00:00") := by
  have hf : stampFuel "01/01/2026 00:00" (fuelSampleRec "VLSFO")
      ∈ (mainCycle "01/01/2026 00:00" (some sampleSoup) sampleFuelFetch).fuel :=
    List.Mem.head _
  have hm : stampMethanol "01/01/2026 00:00" methanolSampleRec
      ∈ (mainCycle "01/01/2026 00:00" (some sampleSoup) sampleFuelFetch).methanol :=
    List.Mem.head _
  have he : stampEua "01/01/2026 00:00" (mkEuaRecord sampleEuaRow)
      ∈ (mainCycle "01/01/2026 00:00" (some sampleSoup) sampleFuelFetch).eua :=
    List.Mem.head _
  exact ⟨⟨hf, (cycle_timestamp_uniform "01/01/2026 00:00" (some sampleSoup)
      sampleFuelFetch).1 _ hf⟩,
    ⟨hm, (cycle_timestamp_uniform "01/01/2026 00:00" (some sampleSoup)
      sampleFuelFetch).2.1 _ hm⟩,
    ⟨he, (cycle_timestamp_uniform "01/01/2026 00:00" (some sampleSoup)
      sampleFuelFetch).2.2 _ he⟩⟩

/-- C3: the fetch retry policy makes at most `max_retries` attempts; when
every attempt fails, exactly 3 attempts occur with a fixed 5-unit delay
between consecutive attempts (and none after the last), the function
returns an empty record list instead of propagating the failure, and the
per-fuel-type loop of `main` still produces the sibling fuel types'
records (a totally failing VLSFO contributes nothing). -/
theorem retry_policy_bounded :
    (∀ (fetch : ℕ → Option FuelPage) (ft : String) (m : ℕ),
        (scrape_fuel_prices fetch ft m).attempts ≤ m) ∧
    (∀ (fetch : ℕ → Option FuelPage) (ft : String), (∀ n, fetch n = none) →
        (scrape_fuel_prices fetch ft 3).records = [] ∧
        (scrape_fuel_prices fetch ft 3).attempts = 3 ∧
        (scrape_fuel_prices fetch ft 3).delays = [5, 5]) ∧
    (∀ (fuelFetch : String → ℕ → Option FuelPage) (ts : String),
        (∀ n, fuelFetch "VLSFO" n = none) →
        fuelLoop fuelFetch ts =
          ((scrape_fuel_prices (fuelFetch "MGO") "MGO" 3).records).map
            (stampFuel ts) ++
          ((scrape_fuel_prices (fuelFetch "IFO380") "IFO380" 3).records).map
            (stampFuel ts)) := by
  refine ⟨?_, ?_, ?_⟩
  · intro fetch ft m
    exact scrapeFuelGo_attempts_le fetch ft m 0
  · intro fetch ft h
    refine ⟨?_, ?_, ?_⟩ <;> simp [scrape_fuel_prices, scrapeFuelGo, h]
  · intro fuelFetch ts h
    have h1 : (scrape_fuel_prices (fuelFetch "VLSFO") "VLSFO" 3).records = [] := by
      simp [scrape_fuel_prices, scrapeFuelGo, h]
    simp [fuelLoop, fuelTypes, h1]

/-- C3 witness: a fetch oracle that always fails makes exactly 3 attempts
with delays `[5, 5]` and yields no records, while the fuel loop with a
failing VLSFO oracle equals the concatenation of its siblings' stamped
results. -/
theorem retry_policy_bounded_witness :
    (scrape_fuel_prices (fun _ => none) "VLSFO" 3).records = [] ∧
    (scrape_fuel_prices (fun _ => none) "VLSFO" 3).attempts = 3 ∧
    (scrape_fuel_prices (fun _ => none) "VLSFO" 3).delays = [5, 5] ∧
    (scrape_fuel_prices (fun _ => none) "VLSFO" 7).attempts ≤ 7 ∧
    fuelLoop (fun _ _ => none) "01/01/2026 00:00" =
      ((scrape_fuel_prices (fun _ => none) "MGO" 3).records).map
        (stampFuel "01/01/2026 00:00") ++
      ((scrape_fuel_prices (fun _ => none) "IFO380" 3).records).map
        (stampFuel "01/01/2026 00:00") :=
  ⟨(retry_policy_bounded.2.1 (fun _ => none) "VLSFO" fun _ => rfl).1,
   (retry_policy_bounded.2.1 (fun _ => none) "VLSFO" fun _ => rfl).2.1,
   (retry_policy_bounded.2.1 (fun _ => none) "VLSFO" fun _ => rfl).2.2,
   retry_policy_bounded.1 (fun _ => none) "VLSFO" 7,
   retry_policy_bounded.2.2 (fun _ _ => none) "01/01/2026 00:00" fun _ => rfl⟩

/-- `String.mk` then `String.data` is the identity on character lists. -/
theorem stringMk_data (l : List Char) : (String.mk l).data = l := rfl

/-- C1: the Normalizer is total (always returns a value), returns exactly
0 when the input is empty or the cleaned text has no numeric substring,
and on the examples: `"<span>-1.25"` with closing tag parses to `-1.25`,
`""` and `"n/a"` give `0.0`. -/
theorem normalizer_total_and_fallback :
    (∀ s : String, ∃ q : ℚ, clean_numeric_value s = q) ∧
    (∀ s : String, findNumericToken (pyStrip (removeTags s.data)) = none →
        clean_numeric_value s = 0) ∧
    clean_numeric_value "" = 0 ∧
    clean_numeric_value "<span>-1.25</span>" = -(5 / 4 : ℚ) ∧
    clean_numeric_value "n/a" = 0 := by
  refine ⟨fun s => ⟨_, rfl⟩, ?_, by decide, ?_, ?_⟩
  · intro s h
    unfold clean_numeric_value
    by_cases he : s.data = []
    · rw [if_pos he]
    · rw [if_neg he, h]
      rfl
  · rw [clean_eval "<span>-1.25</span>" (true, ['1'], ['2', '5'])
      (by decide) (by decide)]
    norm_num [tokenVal, show digitsToNat ['1'] = 1 from by decide,
      show digitsToNat ['2', '5'] = 25 from by decide]
  · unfold clean_numeric_value
    rw [if_neg (by decide),
      show findNumericToken (pyStrip (removeTags ("n/a".data))) = none from by decide]
    rfl

/-- C1 witness: a no-digit input maps to exactly 0. -/
theorem normalizer_total_and_fallback_witness :
    clean_numeric_value "abc" = 0 :=
  normalizer_total_and_fallback.2.1 "abc" (by decide)

/-- C10: the Normalizer truncates comma-grouped numerals at the first
comma: a leading digit run followed by a comma parses to the value of the
leading digit group alone, whatever follows the comma; in particular
`"1,234.56"` parses to `1.0`, not `1234.56`. -/
theorem comma_truncation :
    (∀ (ds t : List Char), ds ≠ [] → (∀ c ∈ ds, c.isDigit = true) →
        clean_numeric_value (String.mk (ds ++ ',' :: t))
          = (digitsToNat ds : ℚ)) ∧
    clean_numeric_value "1,234.56" = 1 := by
  constructor
  · intro ds t hne hdig
    obtain ⟨d, ds', rfl⟩ : ∃ d ds', ds = d :: ds' := by
      cases ds with
      | nil => exact absurd rfl hne
      | cons d ds' => exact ⟨d, ds', rfl⟩
    have hdd : d.isDigit = true := hdig d (List.mem_cons_self d ds')
    have hA : removeTags ((d :: ds') ++ ',' :: t)
        = (d :: ds') ++ ',' :: removeTags t := by
      have hsplit : (d :: ds') ++ ',' :: t = ((d :: ds') ++ [',']) ++ t := by simp
      rw [removeTags, hsplit, tagsAux_append_none]
      · simp [removeTags]
      · intro c hc
        rcases List.mem_append.mp hc with h1 | h2
        · have hcd := hdig c h1
          rintro rfl
          exact absurd hcd (by decide)
        · have : c = ',' := by simpa using h2
          subst this
          decide
    have hC : pyStrip ((d :: ds') ++ ',' :: removeTags t)
        = (d :: ds') ++ ',' ::
            (((removeTags t).reverse.dropWhile isPySpace).reverse) := by
      unfold pyStrip
      have hd0 : isPySpace d = false := isPySpace_eq_false_of_isDigit d hdd
      rw [show (d :: ds') ++ ',' :: removeTags t
          = d :: (ds' ++ ',' :: removeTags t) from rfl]
      rw [List.dropWhile_cons, hd0]
      simp only [Bool.false_eq_true, if_false]
      rw [show (d :: (ds' ++ ',' :: removeTags t)).reverse
          = (removeTags t).reverse ++ ',' :: (d :: ds').reverse from by simp]
      rw [dropWhile_append_stop isPySpace (removeTags t).reverse ','
        ((d :: ds').reverse) (by decide)]
      simp
    have hD : ∀ v : List Char,
        findNumericToken ((d :: ds') ++ ',' :: v)
          = some (false, d :: ds', []) := by
      intro v
      have hds : ∀ c ∈ ds', c.isDigit = true :=
        fun c hc => hdig c (List.mem_cons_of_mem d hc)
      rw [show (d :: ds') ++ ',' :: v = d :: (ds' ++ ',' :: v) from rfl]
      simp only [findNumericToken, hdd, if_true]
      rw [show d :: (ds' ++ ',' :: v) = (d :: ds') ++ ',' :: v from rfl]
      rw [takeWhile_append_sat Char.isDigit (d :: ds') ',' v
          (fun x hx => hdig x hx) (by decide)]
      rw [dropWhile_append_sat Char.isDigit (d :: ds') ',' v
          (fun x hx => hdig x hx) (by decide)]
      split
      · rename_i r heq
        exfalso
        simp at heq
      · rfl
    show ((findNumericToken (pyStrip (removeTags ((d :: ds') ++ ',' :: t)))).map
        tokenVal).getD 0 = ((digitsToNat (d :: ds') : ℚ))
    rw [hA, hC, hD]
    norm_num [tokenVal, digitsToNat]
  · rw [clean_eval "1,234.56" (false, ['1'], []) (by decide) (by decide)]
    norm_num [tokenVal, show digitsToNat ['1'] = 1 from by decide,
      show digitsToNat ([] : List Char) = 0 from rfl]

/-- C10 witness: the truncation statement at the concrete list
`'1' :: ',' :: '2'`. -/
theorem comma_truncation_witness :
    clean_numeric_value (String.mk (['1'] ++ ',' :: ['2']))
      = (digitsToNat ['1'] : ℚ) :=
  comma_truncation.1 ['1'] ['2'] (by decide) (by decide)
